import Mathlib

/-!
Verification of the hand-gesture feature extractor
(`ml/scripts/extract_features.py`, class `HandFeatureExtractor`).

The extractor is a pure function from 21 three-dimensional landmarks to a
31-component feature vector.  We embed it shallowly: landmarks are functions
`Fin 21 → ℝ × ℝ × ℝ`, numpy's float arithmetic is modelled by exact real
arithmetic (`Real.sqrt`, `Real.arccos`), and the feature vector is a
`List ℝ` built by the same concatenation the source performs.
-/

namespace HandFeatures

/-- A single landmark: one 3-component point `(x, y, z)`. -/
abbrev Point : Type := ℝ × ℝ × ℝ

/-- Componentwise subtraction `a - b` of two points. -/
def sub3 (a b : Point) : Point := (a.1 - b.1, a.2.1 - b.2.1, a.2.2 - b.2.2)

/-- Componentwise addition of two points. -/
def add3 (a b : Point) : Point := (a.1 + b.1, a.2.1 + b.2.1, a.2.2 + b.2.2)

/-- Scalar multiple `s * v` of a point. -/
def smul3 (s : ℝ) (a : Point) : Point := (s * a.1, s * a.2.1, s * a.2.2)

/-- Division of every coordinate of a point by a scalar
(numpy's `landmarks / palm_size`, applied to one row). -/
noncomputable def divP (a : Point) (p : ℝ) : Point := (a.1 / p, a.2.1 / p, a.2.2 / p)

/-- Dot product of two points viewed as 3-vectors (`np.dot`). -/
def dot3 (a b : Point) : ℝ := a.1 * b.1 + a.2.1 * b.2.1 + a.2.2 * b.2.2

/-- Squared Euclidean norm of a 3-vector. -/
def normsq (a : Point) : ℝ := a.1 ^ 2 + a.2.1 ^ 2 + a.2.2 ^ 2

/-- Euclidean norm of a 3-vector (`np.linalg.norm`). -/
noncomputable def norm3 (a : Point) : ℝ := Real.sqrt (normsq a)

/-- Euclidean distance `‖b - a‖` between two landmarks. -/
noncomputable def dist3 (a b : Point) : ℝ := norm3 (sub3 b a)

/-- A full hand pose: 21 ordered landmarks. -/
abbrev Landmarks : Type := Fin 21 → Point

/-- The degeneracy threshold `1e-6` used by both clamps in the source. -/
noncomputable def eps : ℝ := 1 / 1000000

/-- Source `HandFeatureExtractor.FINGERS`: the landmark index ranges of the five
fingers (MCP to tip), in the order thumb, index, middle, ring, pinky. -/
def FINGERS : List (List (Fin 21)) :=
  [[1, 2, 3, 4], [5, 6, 7, 8], [9, 10, 11, 12], [13, 14, 15, 16], [17, 18, 19, 20]]

/-- Source `HandFeatureExtractor.FINGER_TIPS`: the fingertip landmark indices. -/
def FINGER_TIPS : List (Fin 21) := [4, 8, 12, 16, 20]

/-- Source `_normalize_translation`: translate all landmarks relative to the wrist
(landmark 0). -/
def normalizeTranslation (L : Landmarks) : Landmarks :=
  fun i => sub3 (L i) (L 0)

/-- The palm size used by `_normalize_scale`: the distance between the middle
finger MCP (landmark 9) and the wrist (landmark 0) of its input. -/
noncomputable def palmSize (L : Landmarks) : ℝ := norm3 (sub3 (L 9) (L 0))

/-- The divisor actually applied by `_normalize_scale`: the palm size, clamped
to `1.0` when it falls below `1e-6` (the division-by-zero guard). -/
noncomputable def effectiveDivisor (L : Landmarks) : ℝ :=
  if palmSize L < eps then 1 else palmSize L

/-- Source `_normalize_scale`: divide every coordinate by the (clamped) palm size. -/
noncomputable def normalizeScale (L : Landmarks) : Landmarks :=
  fun i => divP (L i) (effectiveDivisor L)

/-- The fully normalized pose fed to the four feature groups:
translation normalization followed by scale normalization. -/
noncomputable def NL (L : Landmarks) : Landmarks :=
  normalizeScale (normalizeTranslation L)

/-- One finger's loop body in `_compute_inter_joint_distances`: the wrist is
prepended to the finger's joint chain and the distance between each pair of
consecutive joints is emitted. -/
noncomputable def fingerJointDists (L : Landmarks) (finger : List (Fin 21)) : List ℝ :=
  let joints : List (Fin 21) := (0 : Fin 21) :: finger
  (joints.zip joints.tail).map (fun p => dist3 (L p.1) (L p.2))

/-- Source `_compute_inter_joint_distances`: 20 consecutive-joint distances,
4 per finger, fingers in canonical order. -/
noncomputable def computeInterJointDistances (L : Landmarks) : List ℝ :=
  FINGERS.flatMap (fingerJointDists L)

/-- Source `_compute_fingertip_distances`: distance from each fingertip to the
wrist, 5 values in canonical finger order. -/
noncomputable def computeFingertipDistances (L : Landmarks) : List ℝ :=
  FINGER_TIPS.map (fun tip => dist3 (L 0) (L tip))

/-- Source `np.clip x lo hi`: clamp `x` into `[lo, hi]`. -/
noncomputable def clip (x lo hi : ℝ) : ℝ := min hi (max lo x)

/-- The per-finger angle computation of `_compute_finger_angles`: the angle at
the PIP joint between the vectors `MCP - PIP` and `DIP - PIP`, with the
degenerate fallback `0.0` when either vector's norm is below `1e-6`. -/
noncomputable def pipAngle (mcp pip dip : Point) : ℝ :=
  let v1 := sub3 mcp pip
  let v2 := sub3 dip pip
  let norm1 := norm3 v1
  let norm2 := norm3 v2
  if norm1 < eps ∨ norm2 < eps then 0
  else Real.arccos (clip (dot3 v1 v2 / (norm1 * norm2)) (-1) 1)

/-- The loop body of `_compute_finger_angles`: fingers with at least three
landmarks use their MCP, PIP and DIP; shorter fingers would emit `0.0`. -/
noncomputable def fingerAngle (L : Landmarks) (finger : List (Fin 21)) : ℝ :=
  match finger with
  | mcp :: pip :: dip :: _ => pipAngle (L mcp) (L pip) (L dip)
  | _ => 0

/-- Source `_compute_finger_angles`: 5 PIP-joint angles in canonical finger order. -/
noncomputable def computeFingerAngles (L : Landmarks) : List ℝ :=
  FINGERS.map (fingerAngle L)

/-- Source `_compute_pinch_distance`: distance between thumb tip (landmark 4) and
index tip (landmark 8). -/
noncomputable def computePinchDistance (L : Landmarks) : ℝ :=
  dist3 (L 4) (L 8)

/-- Source `HandFeatureExtractor.extract`: normalize, then concatenate the four
feature groups in fixed order. -/
noncomputable def extract (L : Landmarks) : List ℝ :=
  computeInterJointDistances (NL L) ++ computeFingertipDistances (NL L) ++
    computeFingerAngles (NL L) ++ [computePinchDistance (NL L)]

/-- Unfolding of `extract` into its 31 explicit components. -/
theorem extract_eq_explicit (L : Landmarks) :
    extract L =
      [dist3 (NL L 0) (NL L 1), dist3 (NL L 1) (NL L 2),
       dist3 (NL L 2) (NL L 3), dist3 (NL L 3) (NL L 4),
       dist3 (NL L 0) (NL L 5), dist3 (NL L 5) (NL L 6),
       dist3 (NL L 6) (NL L 7), dist3 (NL L 7) (NL L 8),
       dist3 (NL L 0) (NL L 9), dist3 (NL L 9) (NL L 10),
       dist3 (NL L 10) (NL L 11), dist3 (NL L 11) (NL L 12),
       dist3 (NL L 0) (NL L 13), dist3 (NL L 13) (NL L 14),
       dist3 (NL L 14) (NL L 15), dist3 (NL L 15) (NL L 16),
       dist3 (NL L 0) (NL L 17), dist3 (NL L 17) (NL L 18),
       dist3 (NL L 18) (NL L 19), dist3 (NL L 19) (NL L 20),
       dist3 (NL L 0) (NL L 4), dist3 (NL L 0) (NL L 8),
       dist3 (NL L 0) (NL L 12), dist3 (NL L 0) (NL L 16),
       dist3 (NL L 0) (NL L 20),
       pipAngle (NL L 1) (NL L 2) (NL L 3), pipAngle (NL L 5) (NL L 6) (NL L 7),
       pipAngle (NL L 9) (NL L 10) (NL L 11),
       pipAngle (NL L 13) (NL L 14) (NL L 15),
       pipAngle (NL L 17) (NL L 18) (NL L 19),
       dist3 (NL L 4) (NL L 8)] := by
  rfl

/-- The origin point `(0, 0, 0)`. -/
def origin : Point := ((0 : ℝ), 0, 0)

theorem sub3_self (a : Point) : sub3 a a = origin := by
  simp [sub3, origin]

theorem sub3_origin (a : Point) : sub3 a origin = a := by
  simp [sub3, origin]

theorem divP_one (a : Point) : divP a 1 = a := by
  simp [divP]

theorem divP_origin (p : ℝ) : divP origin p = origin := by
  simp [divP, origin]

theorem normsq_nonneg (a : Point) : 0 ≤ normsq a := by
  unfold normsq; positivity

theorem norm3_origin : norm3 origin = 0 := by
  simp [norm3, normsq, origin]

theorem norm3_nonneg (a : Point) : 0 ≤ norm3 a := Real.sqrt_nonneg _

theorem dist3_nonneg (a b : Point) : 0 ≤ dist3 a b := Real.sqrt_nonneg _

theorem eps_pos : 0 < eps := by norm_num [eps]

theorem pipAngle_nonneg (a b c : Point) : 0 ≤ pipAngle a b c := by
  unfold pipAngle
  dsimp only
  split
  · exact le_rfl
  · exact Real.arccos_nonneg _

/-- The degenerate branch of the angle computation: when the MCP coincides
with the PIP the first vector has norm `0 < 1e-6` and the angle is `0`. -/
theorem pipAngle_eq_zero_of_eq (a b c : Point) (h : a = b) : pipAngle a b c = 0 := by
  unfold pipAngle
  dsimp only
  rw [if_pos]
  left
  rw [h, sub3_self, norm3_origin]
  exact eps_pos

/-- The non-degenerate branch of the angle computation. -/
theorem pipAngle_eq_arccos (a b c : Point)
    (h1 : eps ≤ norm3 (sub3 a b)) (h2 : eps ≤ norm3 (sub3 c b)) :
    pipAngle a b c =
      Real.arccos (clip (dot3 (sub3 a b) (sub3 c b) /
        (norm3 (sub3 a b) * norm3 (sub3 c b))) (-1) 1) := by
  unfold pipAngle
  dsimp only
  rw [if_neg]
  push_neg
  exact ⟨h1, h2⟩

theorem extract_length (L : Landmarks) : (extract L).length = 31 := by
  rw [extract_eq_explicit]; rfl

/-- The effective scale divisor is always strictly positive: either the clamp
value `1.0` or a palm size of at least `1e-6`. -/
theorem effectiveDivisor_pos (L : Landmarks) : 0 < effectiveDivisor L := by
  unfold effectiveDivisor
  split
  · exact one_pos
  · rename_i h
    push_neg at h
    exact lt_of_lt_of_le eps_pos h

/-- The normalized wrist is exactly the origin, for every input. -/
theorem NL_wrist (L : Landmarks) : NL L 0 = origin := by
  show divP (sub3 (L 0) (L 0)) (effectiveDivisor (normalizeTranslation L)) = origin
  rw [sub3_self, divP_origin]

/-- On an all-coincident pose the normalized pose is constantly the origin
and every feature evaluates to `0`. -/
theorem extract_const (L : Landmarks) (h : ∀ i, L i = L 0) :
    extract L = List.replicate 31 0 := by
  have hN : ∀ i, NL L i = origin := by
    intro i
    show divP (sub3 (L i) (L 0)) (effectiveDivisor (normalizeTranslation L)) = origin
    rw [h i, sub3_self, divP_origin]
  have hd : ∀ i j : Fin 21, dist3 (NL L i) (NL L j) = 0 := by
    intro i j
    rw [hN i, hN j]
    unfold dist3
    rw [sub3_self, norm3_origin]
  have ha : ∀ i j k : Fin 21, pipAngle (NL L i) (NL L j) (NL L k) = 0 := by
    intro i j k
    rw [hN i, hN j]
    exact pipAngle_eq_zero_of_eq _ _ _ rfl
  rw [extract_eq_explicit]
  simp only [hd, ha]
  rfl

theorem sub3_smul (s : ℝ) (a b : Point) :
    sub3 (smul3 s a) (smul3 s b) = smul3 s (sub3 a b) := by
  simp only [sub3, smul3, Prod.mk.injEq]
  exact ⟨by ring, by ring, by ring⟩

theorem normsq_smul (s : ℝ) (a : Point) : normsq (smul3 s a) = s ^ 2 * normsq a := by
  simp only [normsq, smul3]
  ring

theorem norm3_smul (s : ℝ) (a : Point) (hs : 0 ≤ s) :
    norm3 (smul3 s a) = s * norm3 a := by
  unfold norm3
  rw [normsq_smul, Real.sqrt_mul (sq_nonneg s), Real.sqrt_sq hs]

theorem divP_smul_cancel (s p : ℝ) (a : Point) (hs : s ≠ 0) :
    divP (smul3 s a) (s * p) = divP a p := by
  simp only [divP, smul3, Prod.mk.injEq]
  exact ⟨mul_div_mul_left _ _ hs, mul_div_mul_left _ _ hs, mul_div_mul_left _ _ hs⟩

theorem norm3_divP (a : Point) (p : ℝ) (hp : 0 ≤ p) :
    norm3 (divP a p) = norm3 a / p := by
  unfold norm3
  have hq : normsq (divP a p) = normsq a / p ^ 2 := by
    simp only [normsq, divP]
    ring
  rw [hq, Real.sqrt_div (normsq_nonneg a), Real.sqrt_sq hp]

/-- Poses whose wrist is the origin and whose palm size is exactly `1` are
fixed points of the whole normalization pipeline. -/
theorem NL_eq_self (L : Landmarks) (h0 : L 0 = origin) (hp : palmSize L = 1) :
    NL L = L := by
  have hT : normalizeTranslation L = L := by
    funext i
    show sub3 (L i) (L 0) = L i
    rw [h0, sub3_origin]
  funext i
  show divP (normalizeTranslation L i) (effectiveDivisor (normalizeTranslation L)) = L i
  rw [hT]
  unfold effectiveDivisor
  rw [hp, if_neg (by norm_num [eps])]
  exact divP_one _

theorem norm3_e1 : norm3 (((1 : ℝ), (0 : ℝ), (0 : ℝ))) = 1 := by
  unfold norm3 normsq
  norm_num

/-- C1: for every 21×3 input, `extract` returns exactly 31 numbers in the
fixed order: 20 inter-joint distances (4 per finger, fingers ordered thumb,
index, middle, ring, pinky, each finger proximal to distal starting with the
wrist-to-MCP gap), then 5 fingertip-to-wrist distances, then 5 PIP angles,
then the thumb-tip-to-index-tip pinch distance. -/
theorem extract_length_and_layout (L : Landmarks) :
    (extract L).length = 31 ∧
    extract L =
      [dist3 (NL L 0) (NL L 1), dist3 (NL L 1) (NL L 2),
       dist3 (NL L 2) (NL L 3), dist3 (NL L 3) (NL L 4),
       dist3 (NL L 0) (NL L 5), dist3 (NL L 5) (NL L 6),
       dist3 (NL L 6) (NL L 7), dist3 (NL L 7) (NL L 8),
       dist3 (NL L 0) (NL L 9), dist3 (NL L 9) (NL L 10),
       dist3 (NL L 10) (NL L 11), dist3 (NL L 11) (NL L 12),
       dist3 (NL L 0) (NL L 13), dist3 (NL L 13) (NL L 14),
       dist3 (NL L 14) (NL L 15), dist3 (NL L 15) (NL L 16),
       dist3 (NL L 0) (NL L 17), dist3 (NL L 17) (NL L 18),
       dist3 (NL L 18) (NL L 19), dist3 (NL L 19) (NL L 20),
       dist3 (NL L 0) (NL L 4), dist3 (NL L 0) (NL L 8),
       dist3 (NL L 0) (NL L 12), dist3 (NL L 0) (NL L 16),
       dist3 (NL L 0) (NL L 20),
       pipAngle (NL L 1) (NL L 2) (NL L 3), pipAngle (NL L 5) (NL L 6) (NL L 7),
       pipAngle (NL L 9) (NL L 10) (NL L 11),
       pipAngle (NL L 13) (NL L 14) (NL L 15),
       pipAngle (NL L 17) (NL L 18) (NL L 19),
       dist3 (NL L 4) (NL L 8)] :=
  ⟨extract_length L, extract_eq_explicit L⟩

/-- C3: translation invariance — adding one constant offset to all 21 input
points leaves the whole 31-component output unchanged, because subtracting
the wrist cancels the offset. -/
theorem extract_translation_invariance (L : Landmarks) (c : Point) :
    extract (fun i => add3 (L i) c) = extract L := by
  have hT : normalizeTranslation (fun i => add3 (L i) c) = normalizeTranslation L := by
    funext i
    show sub3 (add3 (L i) c) (add3 (L 0) c) = sub3 (L i) (L 0)
    simp only [sub3, add3, Prod.mk.injEq]
    exact ⟨by ring, by ring, by ring⟩
  unfold extract NL
  rw [hT]

/-- C8: the last output component (index 30) is the Euclidean distance
between the normalized thumb tip (landmark 4) and the normalized index tip
(landmark 8). -/
theorem pinch_component (L : Landmarks) :
    (extract L).getD 30 0 = dist3 (NL L 4) (NL L 8) := by
  rw [extract_eq_explicit]
  rfl

/-- C4: the scale divisor actually applied is always strictly positive (so no
division by zero ever occurs), and on the degenerate pose where all 21 points
coincide the clamp to divisor `1.0` makes every one of the 31 outputs the
well-defined value `0`. -/
theorem extract_total (L : Landmarks) :
    0 < effectiveDivisor (normalizeTranslation L) ∧
    ((∀ i, L i = L 0) → extract L = List.replicate 31 0) :=
  ⟨effectiveDivisor_pos _, extract_const L⟩

/-- A constant test pose used to exercise the degenerate branch of C4. -/
def LcC : Landmarks := fun _ => ((1 : ℝ), 2, 3)

/-- Witness for C4 at the constant pose: all points coincide and the output
is 31 zeros. -/
theorem extract_total_witness :
    (∀ i : Fin 21, LcC i = LcC 0) ∧ extract LcC = List.replicate 31 0 :=
  ⟨fun _ => rfl, (extract_total LcC).2 (fun _ => rfl)⟩

/-- Every entry of the feature vector is a Euclidean distance or a clamped
angle, hence non-negative. -/
theorem extract_mem_nonneg (L : Landmarks) : ∀ x ∈ extract L, 0 ≤ x := by
  intro x hx
  rw [extract_eq_explicit] at hx
  simp only [List.mem_cons, List.not_mem_nil, or_false] at hx
  rcases hx with rfl | rfl | rfl | rfl | rfl | rfl | rfl | rfl | rfl | rfl | rfl | rfl |
    rfl | rfl | rfl | rfl | rfl | rfl | rfl | rfl | rfl | rfl | rfl | rfl | rfl | rfl |
    rfl | rfl | rfl | rfl | rfl
  all_goals first
    | exact dist3_nonneg _ _
    | exact pipAngle_nonneg _ _ _

/-- C9: every one of the 31 output components is non-negative — the 26
distance features are Euclidean norms and the 5 angle features are either the
`0.0` fallback or an arccosine value in `[0, π]`. -/
theorem extract_getD_nonneg (L : Landmarks) (k : ℕ) : 0 ≤ (extract L).getD k 0 := by
  by_cases hk : k < (extract L).length
  · rw [List.getD_eq_getElem _ _ hk]
    exact extract_mem_nonneg L _ (List.getElem_mem hk)
  · rw [List.getD_eq_default _ _ (le_of_not_lt hk)]

/-- C10: when the wrist-to-middle-MCP distance is at least `1e-6`, the
normalized middle MCP has norm exactly `1` and output component 8 (the
wrist-to-middle-MCP inter-joint distance) is exactly `1`; and the normalized
wrist is exactly the origin for every input. -/
theorem normalization_invariants (L : Landmarks) :
    (eps ≤ dist3 (L 0) (L 9) →
      norm3 (NL L 9) = 1 ∧ (extract L).getD 8 0 = 1) ∧
    NL L 0 = origin := by
  refine ⟨fun h => ?_, NL_wrist L⟩
  have hp : palmSize (normalizeTranslation L) = dist3 (L 0) (L 9) := by
    show norm3 (sub3 (sub3 (L 9) (L 0)) (sub3 (L 0) (L 0))) = dist3 (L 0) (L 9)
    rw [sub3_self, sub3_origin]
    rfl
  have hdpos : 0 < dist3 (L 0) (L 9) := lt_of_lt_of_le eps_pos h
  have hdv : effectiveDivisor (normalizeTranslation L) = dist3 (L 0) (L 9) := by
    unfold effectiveDivisor
    rw [hp, if_neg (not_lt.2 h)]
  have h9 : norm3 (NL L 9) = 1 := by
    show norm3 (divP (normalizeTranslation L 9) (effectiveDivisor (normalizeTranslation L))) = 1
    rw [norm3_divP _ _ (le_of_lt (lt_of_lt_of_le eps_pos (hdv ▸ h))), hdv]
    have hT9 : norm3 (normalizeTranslation L 9) = dist3 (L 0) (L 9) := rfl
    rw [hT9, div_self (ne_of_gt hdpos)]
  refine ⟨h9, ?_⟩
  have hc : (extract L).getD 8 0 = dist3 (NL L 0) (NL L 9) := by
    rw [extract_eq_explicit]
    rfl
  rw [hc, NL_wrist L]
  show norm3 (sub3 (NL L 9) origin) = 1
  rw [sub3_origin]
  exact h9

/-- A simple one-palm-width test pose: landmark 9 one unit from the wrist,
all other landmarks at the origin. -/
noncomputable def Lc2 : Landmarks :=
  fun i => if i = (9 : Fin 21) then ((1 : ℝ), 0, 0) else origin

theorem Lc2_wrist : Lc2 0 = origin := by
  unfold Lc2
  rw [if_neg (by decide)]

theorem Lc2_palm : palmSize Lc2 = 1 := by
  unfold palmSize
  rw [Lc2_wrist, sub3_origin]
  show norm3 (if (9 : Fin 21) = 9 then ((1 : ℝ), 0, 0) else origin) = 1
  rw [if_pos rfl]
  exact norm3_e1

/-- Witness for C10 at the test pose: the palm-size hypothesis holds and the
component-8 and wrist invariants follow. -/
theorem normalization_invariants_witness :
    eps ≤ dist3 (Lc2 0) (Lc2 9) ∧
    (norm3 (NL Lc2 9) = 1 ∧ (extract Lc2).getD 8 0 = 1) ∧ NL Lc2 0 = origin := by
  have hd : dist3 (Lc2 0) (Lc2 9) = 1 := by
    unfold dist3
    rw [Lc2_wrist, sub3_origin]
    show norm3 (if (9 : Fin 21) = 9 then ((1 : ℝ), 0, 0) else origin) = 1
    rw [if_pos rfl]
    exact norm3_e1
  have h : eps ≤ dist3 (Lc2 0) (Lc2 9) := by rw [hd]; norm_num [eps]
  exact ⟨h, (normalization_invariants Lc2).1 h, (normalization_invariants Lc2).2⟩

theorem smul3_origin (s : ℝ) : smul3 s origin = origin := by
  simp [smul3, origin]

theorem Lc2_trans : normalizeTranslation Lc2 = Lc2 := by
  funext i
  show sub3 (Lc2 i) (Lc2 0) = Lc2 i
  rw [Lc2_wrist, sub3_origin]

theorem Lc2_NL : NL Lc2 = Lc2 := NL_eq_self Lc2 Lc2_wrist Lc2_palm

theorem Lc2_at9 : Lc2 9 = ((1 : ℝ), 0, 0) := by
  unfold Lc2
  rw [if_pos rfl]

theorem Lc2_dist09 : dist3 (Lc2 0) (Lc2 9) = 1 := by
  unfold dist3
  rw [Lc2_wrist, sub3_origin, Lc2_at9]
  exact norm3_e1

/-- Counterexample to C2 as stated: scaling the one-palm-width pose by the
positive scalar `1e-7` pushes the palm size below the `1e-6` clamp, so the
divisor becomes `1.0` instead of the scaled palm size and the output changes
(component 8 drops from `1` to `1e-7`). -/
theorem extract_scale_invariance_cex :
    (0 : ℝ) < 1 / 10000000 ∧
    extract (fun i => smul3 (1 / 10000000) (Lc2 i)) ≠ extract Lc2 := by
  refine ⟨by norm_num, fun hEq => ?_⟩
  have hL : (extract Lc2).getD 8 0 = 1 := by
    rw [extract_eq_explicit]
    show dist3 (NL Lc2 0) (NL Lc2 9) = 1
    rw [Lc2_NL]
    exact Lc2_dist09
  have hS0 : (fun i => smul3 (1 / 10000000) (Lc2 i)) 0 = origin := by
    show smul3 (1 / 10000000) (Lc2 0) = origin
    rw [Lc2_wrist, smul3_origin]
  have hTS : normalizeTranslation (fun i => smul3 (1 / 10000000) (Lc2 i)) =
      fun i => smul3 (1 / 10000000) (Lc2 i) := by
    funext i
    show sub3 (smul3 (1 / 10000000) (Lc2 i)) (smul3 (1 / 10000000) (Lc2 0)) =
      smul3 (1 / 10000000) (Lc2 i)
    rw [Lc2_wrist, smul3_origin, sub3_origin]
  have hpS : palmSize (fun i => smul3 (1 / 10000000) (Lc2 i)) = 1 / 10000000 := by
    unfold palmSize
    show norm3 (sub3 (smul3 (1 / 10000000) (Lc2 9)) (smul3 (1 / 10000000) (Lc2 0))) =
      1 / 10000000
    rw [Lc2_wrist, smul3_origin, sub3_origin, Lc2_at9]
    unfold norm3 normsq smul3
    rw [show ((1 : ℝ) / 10000000 * 1) ^ 2 + (1 / 10000000 * 0) ^ 2 +
      (1 / 10000000 * 0) ^ 2 = ((1 : ℝ) / 10000000) ^ 2 by norm_num]
    exact Real.sqrt_sq (by norm_num)
  have hNS : NL (fun i => smul3 (1 / 10000000) (Lc2 i)) =
      fun i => smul3 (1 / 10000000) (Lc2 i) := by
    funext i
    show divP (normalizeTranslation (fun i => smul3 (1 / 10000000) (Lc2 i)) i)
      (effectiveDivisor (normalizeTranslation (fun i => smul3 (1 / 10000000) (Lc2 i)))) =
      smul3 (1 / 10000000) (Lc2 i)
    rw [hTS]
    unfold effectiveDivisor
    rw [hpS, if_pos (by norm_num [eps]), divP_one]
  have hS : (extract (fun i => smul3 (1 / 10000000) (Lc2 i))).getD 8 0 = 1 / 10000000 := by
    rw [extract_eq_explicit]
    show dist3 (NL (fun i => smul3 (1 / 10000000) (Lc2 i)) 0)
      (NL (fun i => smul3 (1 / 10000000) (Lc2 i)) 9) = 1 / 10000000
    rw [hNS]
    unfold dist3
    rw [hS0, sub3_origin]
    show norm3 (smul3 (1 / 10000000) (Lc2 9)) = 1 / 10000000
    rw [Lc2_at9]
    unfold norm3 normsq smul3
    rw [show ((1 : ℝ) / 10000000 * 1) ^ 2 + (1 / 10000000 * 0) ^ 2 +
      (1 / 10000000 * 0) ^ 2 = ((1 : ℝ) / 10000000) ^ 2 by norm_num]
    exact Real.sqrt_sq (by norm_num)
  have : (1 : ℝ) / 10000000 = 1 := by
    rw [← hS, hEq, hL]
  norm_num at this

/-- C2 (amended): scale invariance holds for every positive scalar `s` as
long as both the original and the scaled palm sizes stay at or above the
`1e-6` clamp threshold — then the divisor scales by `s` and cancels. -/
theorem extract_scale_invariance (L : Landmarks) (s : ℝ) (hs : 0 < s)
    (h1 : eps ≤ palmSize (normalizeTranslation L))
    (h2 : eps ≤ s * palmSize (normalizeTranslation L)) :
    extract (fun i => smul3 s (L i)) = extract L := by
  have hTf : normalizeTranslation (fun i => smul3 s (L i)) =
      fun i => smul3 s (normalizeTranslation L i) := by
    funext i
    show sub3 (smul3 s (L i)) (smul3 s (L 0)) = smul3 s (sub3 (L i) (L 0))
    exact sub3_smul s (L i) (L 0)
  have hps : palmSize (normalizeTranslation (fun i => smul3 s (L i))) =
      s * palmSize (normalizeTranslation L) := by
    unfold palmSize
    rw [hTf]
    show norm3 (sub3 (smul3 s (normalizeTranslation L 9))
      (smul3 s (normalizeTranslation L 0))) = _
    rw [sub3_smul, norm3_smul _ _ (le_of_lt hs)]
  have hdv : effectiveDivisor (normalizeTranslation (fun i => smul3 s (L i))) =
      s * palmSize (normalizeTranslation L) := by
    unfold effectiveDivisor
    rw [hps, if_neg (not_lt.2 h2)]
  have hdv0 : effectiveDivisor (normalizeTranslation L) = palmSize (normalizeTranslation L) := by
    unfold effectiveDivisor
    rw [if_neg (not_lt.2 h1)]
  have hNL : NL (fun i => smul3 s (L i)) = NL L := by
    funext i
    show divP (normalizeTranslation (fun i => smul3 s (L i)) i)
        (effectiveDivisor (normalizeTranslation (fun i => smul3 s (L i)))) =
      divP (normalizeTranslation L i) (effectiveDivisor (normalizeTranslation L))
    rw [hdv, hdv0, hTf]
    exact divP_smul_cancel s _ _ (ne_of_gt hs)
  unfold extract
  rw [hNL]

/-- Witness for the amended C2: doubling the one-palm-width pose keeps both
palm sizes above the threshold and leaves the output unchanged. -/
theorem extract_scale_invariance_witness :
    (0 : ℝ) < 2 ∧ eps ≤ palmSize (normalizeTranslation Lc2) ∧
    eps ≤ 2 * palmSize (normalizeTranslation Lc2) ∧
    extract (fun i => smul3 2 (Lc2 i)) = extract Lc2 := by
  have hp : palmSize (normalizeTranslation Lc2) = 1 := by
    rw [Lc2_trans, Lc2_palm]
  exact ⟨by norm_num, by rw [hp]; norm_num [eps], by rw [hp]; norm_num [eps],
    extract_scale_invariance Lc2 2 (by norm_num) (by rw [hp]; norm_num [eps])
      (by rw [hp]; norm_num [eps])⟩

theorem palmSize_unit (L : Landmarks) (h0 : L 0 = origin)
    (h9 : L 9 = ((1 : ℝ), 0, 0)) : palmSize L = 1 := by
  unfold palmSize
  rw [h0, sub3_origin, h9]
  exact norm3_e1

/-- Normalized poses agree at every landmark outside the index finger when
the raw poses do: translation reads only landmark 0 and the scale divisor
reads only landmarks 0 and 9, none of which is an index-finger joint. -/
theorem NL_congr_outside (L L' : Landmarks)
    (h : ∀ i : Fin 21, i ∉ ([5, 6, 7, 8] : List (Fin 21)) → L' i = L i) :
    ∀ i : Fin 21, i ∉ ([5, 6, 7, 8] : List (Fin 21)) → NL L' i = NL L i := by
  intro i hi
  have h0 : L' 0 = L 0 := h 0 (by decide)
  have h9 : L' 9 = L 9 := h 9 (by decide)
  have hTi : normalizeTranslation L' i = normalizeTranslation L i := by
    show sub3 (L' i) (L' 0) = sub3 (L i) (L 0)
    rw [h i hi, h0]
  have hpalm : palmSize (normalizeTranslation L') = palmSize (normalizeTranslation L) := by
    show norm3 (sub3 (sub3 (L' 9) (L' 0)) (sub3 (L' 0) (L' 0))) =
      norm3 (sub3 (sub3 (L 9) (L 0)) (sub3 (L 0) (L 0)))
    rw [h0, h9]
  show divP (normalizeTranslation L' i) (effectiveDivisor (normalizeTranslation L')) =
    divP (normalizeTranslation L i) (effectiveDivisor (normalizeTranslation L))
  unfold effectiveDivisor
  rw [hTi, hpalm]

/-- C5 (amended): when only the index-finger landmarks 5–8 move, every
feature outside positions 4–7 (the index inter-joint group, including its
wrist gap at 4), 21 (index fingertip), 26 (index angle) and 30 (pinch, which
reads the index tip) is unchanged. -/
theorem extract_index_frame (L L' : Landmarks)
    (h : ∀ i : Fin 21, i ∉ ([5, 6, 7, 8] : List (Fin 21)) → L' i = L i)
    (k : ℕ) (hk : k < 31) (hgood : k ∉ ([4, 5, 6, 7, 21, 26, 30] : List ℕ)) :
    (extract L').getD k 0 = (extract L).getD k 0 := by
  have g := NL_congr_outside L L' h
  have g0 := g 0 (by decide)
  have g1 := g 1 (by decide)
  have g2 := g 2 (by decide)
  have g3 := g 3 (by decide)
  have g4 := g 4 (by decide)
  have g9 := g 9 (by decide)
  have g10 := g 10 (by decide)
  have g11 := g 11 (by decide)
  have g12 := g 12 (by decide)
  have g13 := g 13 (by decide)
  have g14 := g 14 (by decide)
  have g15 := g 15 (by decide)
  have g16 := g 16 (by decide)
  have g17 := g 17 (by decide)
  have g18 := g 18 (by decide)
  have g19 := g 19 (by decide)
  have g20 := g 20 (by decide)
  rw [extract_eq_explicit L, extract_eq_explicit L']
  interval_cases k
  · show dist3 (NL L' 0) (NL L' 1) = dist3 (NL L 0) (NL L 1)
    rw [g0, g1]
  · show dist3 (NL L' 1) (NL L' 2) = dist3 (NL L 1) (NL L 2)
    rw [g1, g2]
  · show dist3 (NL L' 2) (NL L' 3) = dist3 (NL L 2) (NL L 3)
    rw [g2, g3]
  · show dist3 (NL L' 3) (NL L' 4) = dist3 (NL L 3) (NL L 4)
    rw [g3, g4]
  · exact absurd (by decide) hgood
  · exact absurd (by decide) hgood
  · exact absurd (by decide) hgood
  · exact absurd (by decide) hgood
  · show dist3 (NL L' 0) (NL L' 9) = dist3 (NL L 0) (NL L 9)
    rw [g0, g9]
  · show dist3 (NL L' 9) (NL L' 10) = dist3 (NL L 9) (NL L 10)
    rw [g9, g10]
  · show dist3 (NL L' 10) (NL L' 11) = dist3 (NL L 10) (NL L 11)
    rw [g10, g11]
  · show dist3 (NL L' 11) (NL L' 12) = dist3 (NL L 11) (NL L 12)
    rw [g11, g12]
  · show dist3 (NL L' 0) (NL L' 13) = dist3 (NL L 0) (NL L 13)
    rw [g0, g13]
  · show dist3 (NL L' 13) (NL L' 14) = dist3 (NL L 13) (NL L 14)
    rw [g13, g14]
  · show dist3 (NL L' 14) (NL L' 15) = dist3 (NL L 14) (NL L 15)
    rw [g14, g15]
  · show dist3 (NL L' 15) (NL L' 16) = dist3 (NL L 15) (NL L 16)
    rw [g15, g16]
  · show dist3 (NL L' 0) (NL L' 17) = dist3 (NL L 0) (NL L 17)
    rw [g0, g17]
  · show dist3 (NL L' 17) (NL L' 18) = dist3 (NL L 17) (NL L 18)
    rw [g17, g18]
  · show dist3 (NL L' 18) (NL L' 19) = dist3 (NL L 18) (NL L 19)
    rw [g18, g19]
  · show dist3 (NL L' 19) (NL L' 20) = dist3 (NL L 19) (NL L 20)
    rw [g19, g20]
  · show dist3 (NL L' 0) (NL L' 4) = dist3 (NL L 0) (NL L 4)
    rw [g0, g4]
  · exact absurd (by decide) hgood
  · show dist3 (NL L' 0) (NL L' 12) = dist3 (NL L 0) (NL L 12)
    rw [g0, g12]
  · show dist3 (NL L' 0) (NL L' 16) = dist3 (NL L 0) (NL L 16)
    rw [g0, g16]
  · show dist3 (NL L' 0) (NL L' 20) = dist3 (NL L 0) (NL L 20)
    rw [g0, g20]
  · show pipAngle (NL L' 1) (NL L' 2) (NL L' 3) = pipAngle (NL L 1) (NL L 2) (NL L 3)
    rw [g1, g2, g3]
  · exact absurd (by decide) hgood
  · show pipAngle (NL L' 9) (NL L' 10) (NL L' 11) = pipAngle (NL L 9) (NL L 10) (NL L 11)
    rw [g9, g10, g11]
  · show pipAngle (NL L' 13) (NL L' 14) (NL L' 15) = pipAngle (NL L 13) (NL L 14) (NL L 15)
    rw [g13, g14, g15]
  · show pipAngle (NL L' 17) (NL L' 18) (NL L' 19) = pipAngle (NL L 17) (NL L 18) (NL L 19)
    rw [g17, g18, g19]
  · exact absurd (by decide) hgood

/-- Reference pose for the frame-effect test: the one-palm-width pose with
the index MCP (landmark 5) raised one unit. -/
noncomputable def Lc5 : Landmarks :=
  fun i => if i = (5 : Fin 21) then ((0 : ℝ), 1, 0) else Lc2 i

/-- Displaced pose: identical to `Lc5` except the index MCP moved to height
two. -/
noncomputable def Lc5' : Landmarks :=
  fun i => if i = (5 : Fin 21) then ((0 : ℝ), 2, 0) else Lc2 i

theorem Lc5_agree :
    ∀ i : Fin 21, i ∉ ([5, 6, 7, 8] : List (Fin 21)) → Lc5' i = Lc5 i := by
  intro i hi
  have h5 : i ≠ (5 : Fin 21) := fun h => hi (by rw [h]; decide)
  unfold Lc5 Lc5'
  rw [if_neg h5, if_neg h5]

theorem Lc5_wrist : Lc5 0 = origin := by
  unfold Lc5
  rw [if_neg (by decide)]
  exact Lc2_wrist

theorem Lc5'_wrist : Lc5' 0 = origin := by
  unfold Lc5'
  rw [if_neg (by decide)]
  exact Lc2_wrist

theorem Lc5_NL : NL Lc5 = Lc5 := by
  refine NL_eq_self Lc5 Lc5_wrist (palmSize_unit Lc5 Lc5_wrist ?_)
  unfold Lc5
  rw [if_neg (by decide)]
  exact Lc2_at9

theorem Lc5'_NL : NL Lc5' = Lc5' := by
  refine NL_eq_self Lc5' Lc5'_wrist (palmSize_unit Lc5' Lc5'_wrist ?_)
  unfold Lc5'
  rw [if_neg (by decide)]
  exact Lc2_at9

/-- Counterexample to C5 as stated: displacing only index-finger landmarks
(here landmark 5, the index MCP) also changes feature position 4 — the
wrist-to-index-MCP gap, the index group's slot 0 — which the claim asserts
is unchanged. -/
theorem extract_index_frame_cex :
    (∀ i : Fin 21, i ∉ ([5, 6, 7, 8] : List (Fin 21)) → Lc5' i = Lc5 i) ∧
    (extract Lc5').getD 4 0 ≠ (extract Lc5).getD 4 0 := by
  refine ⟨Lc5_agree, ?_⟩
  have hA : (extract Lc5).getD 4 0 = 1 := by
    rw [extract_eq_explicit]
    show dist3 (NL Lc5 0) (NL Lc5 5) = 1
    rw [Lc5_NL]
    unfold dist3
    rw [Lc5_wrist, sub3_origin]
    show norm3 (if (5 : Fin 21) = 5 then ((0 : ℝ), 1, 0) else Lc2 5) = 1
    rw [if_pos rfl]
    unfold norm3 normsq
    norm_num
  have hB : (extract Lc5').getD 4 0 = 2 := by
    rw [extract_eq_explicit]
    show dist3 (NL Lc5' 0) (NL Lc5' 5) = 2
    rw [Lc5'_NL]
    unfold dist3
    rw [Lc5'_wrist, sub3_origin]
    show norm3 (if (5 : Fin 21) = 5 then ((0 : ℝ), 2, 0) else Lc2 5) = 2
    rw [if_pos rfl]
    unfold norm3 normsq
    rw [show (0 : ℝ) ^ 2 + (2 : ℝ) ^ 2 + (0 : ℝ) ^ 2 = (2 : ℝ) ^ 2 by norm_num,
      Real.sqrt_sq (by norm_num)]
  rw [hA, hB]
  norm_num

/-- Witness for the amended C5 at the displaced pose, checked at feature
position 0 (a thumb feature, outside the affected set). -/
theorem extract_index_frame_witness :
    (0 : ℕ) < 31 ∧ (0 : ℕ) ∉ ([4, 5, 6, 7, 21, 26, 30] : List ℕ) ∧
    (extract Lc5').getD 0 0 = (extract Lc5).getD 0 0 :=
  ⟨by norm_num, by decide,
    extract_index_frame Lc5 Lc5' Lc5_agree 0 (by norm_num) (by decide)⟩

/-- The source `extract` applied to a pose with an arbitrary number of rows.
It contains no shape validation of its own: numpy indexing reads only
landmarks 0–20, so any input with at least 21 rows is processed (extra rows
are ignored by every feature), while an input with fewer than 21 rows makes
an index access fail — modelled as `none` (numpy's IndexError), which is not
a `ShapeError` check. -/
noncomputable def extractFromRows (rows : List Point) : Option (List ℝ) :=
  if h : 21 ≤ rows.length then
    some (extract (fun i => rows.get ⟨i.val, lt_of_lt_of_le i.isLt h⟩))
  else none

/-- A 22-row input: one row too many. -/
def rows22 : List Point := List.replicate 22 origin

/-- Counterexample to C6 as stated: a 22-point input is not rejected at all —
the extractor defines no `ShapeError`, performs no shape check, and happily
returns a full 31-component output computed from the first 21 points. -/
theorem extract_shape_cex :
    rows22.length ≠ 21 ∧ extractFromRows rows22 = some (List.replicate 31 0) := by
  constructor
  · simp [rows22]
  · unfold extractFromRows
    rw [dif_pos (by simp [rows22])]
    congr 1
    apply extract_const
    intro i
    show rows22.get _ = rows22.get _
    simp only [rows22, List.get_eq_getElem, List.getElem_replicate]

/-- C6 (amended): the extractor performs no shape validation and raises no
`ShapeError`; any input with at least 21 points is processed successfully
into a 31-component vector (extra points ignored), and an input with fewer
than 21 points fails with an index error from landmark access. -/
theorem extract_no_shape_check (rows : List Point) :
    (21 ≤ rows.length → ∃ out, extractFromRows rows = some out ∧ out.length = 31) ∧
    (rows.length < 21 → extractFromRows rows = none) := by
  constructor
  · intro h
    exact ⟨_, dif_pos h, extract_length _⟩
  · intro h
    exact dif_neg (by omega)

/-- Witness for the amended C6 at the 22-row input. -/
theorem extract_no_shape_check_witness :
    21 ≤ rows22.length ∧
    ∃ out, extractFromRows rows22 = some out ∧ out.length = 31 :=
  ⟨by simp [rows22], (extract_no_shape_check rows22).1 (by simp [rows22])⟩

/-- The MCP landmark index of finger `f` (fingers numbered thumb = 0 through
pinky = 4). -/
def fingerMCP (f : Fin 5) : Fin 21 := ⟨4 * f.val + 1, by have h := f.isLt; omega⟩

/-- The PIP landmark index of finger `f`. -/
def fingerPIP (f : Fin 5) : Fin 21 := ⟨4 * f.val + 2, by have h := f.isLt; omega⟩

/-- The DIP landmark index of finger `f`. -/
def fingerDIP (f : Fin 5) : Fin 21 := ⟨4 * f.val + 3, by have h := f.isLt; omega⟩

/-- Output component `25 + f` is the PIP angle of finger `f` computed on the
normalized pose. -/
theorem extract_angle_component (L : Landmarks) (f : Fin 5) :
    (extract L).getD (25 + f.val) 0 =
      pipAngle (NL L (fingerMCP f)) (NL L (fingerPIP f)) (NL L (fingerDIP f)) := by
  fin_cases f <;> rw [extract_eq_explicit] <;> rfl

/-- C7: a finger whose MCP, PIP and DIP coincide gets angle exactly `0.0`
(the degenerate fallback), and a finger whose two PIP-relative vectors both
have norm at least `1e-6` gets the arccosine of the clamped normalized dot
product. -/
theorem finger_angle_cases (L : Landmarks) (f : Fin 5) :
    (L (fingerMCP f) = L (fingerPIP f) → L (fingerDIP f) = L (fingerPIP f) →
      (extract L).getD (25 + f.val) 0 = 0) ∧
    (eps ≤ norm3 (sub3 (NL L (fingerMCP f)) (NL L (fingerPIP f))) →
      eps ≤ norm3 (sub3 (NL L (fingerDIP f)) (NL L (fingerPIP f))) →
      (extract L).getD (25 + f.val) 0 =
        Real.arccos (clip (dot3 (sub3 (NL L (fingerMCP f)) (NL L (fingerPIP f)))
            (sub3 (NL L (fingerDIP f)) (NL L (fingerPIP f))) /
          (norm3 (sub3 (NL L (fingerMCP f)) (NL L (fingerPIP f))) *
           norm3 (sub3 (NL L (fingerDIP f)) (NL L (fingerPIP f))))) (-1) 1)) := by
  constructor
  · intro h1 _
    rw [extract_angle_component]
    apply pipAngle_eq_zero_of_eq
    show divP (sub3 (L (fingerMCP f)) (L 0)) (effectiveDivisor (normalizeTranslation L)) =
      divP (sub3 (L (fingerPIP f)) (L 0)) (effectiveDivisor (normalizeTranslation L))
    rw [h1]
  · intro h1 h2
    rw [extract_angle_component]
    exact pipAngle_eq_arccos _ _ _ h1 h2

theorem Lc2_ne9 (i : Fin 21) (h : i ≠ (9 : Fin 21)) : Lc2 i = origin := by
  unfold Lc2
  rw [if_neg h]

/-- A pose with a right angle at the index PIP joint: index MCP one unit up,
index DIP one unit forward, index PIP at the origin, palm width one. -/
noncomputable def Lc7 : Landmarks :=
  fun i => if i = (5 : Fin 21) then ((0 : ℝ), 1, 0)
    else if i = (7 : Fin 21) then ((0 : ℝ), 0, 1) else Lc2 i

theorem Lc7_wrist : Lc7 0 = origin := by
  unfold Lc7
  rw [if_neg (by decide), if_neg (by decide)]
  exact Lc2_ne9 0 (by decide)

theorem Lc7_NL : NL Lc7 = Lc7 := by
  refine NL_eq_self Lc7 Lc7_wrist (palmSize_unit Lc7 Lc7_wrist ?_)
  unfold Lc7
  rw [if_neg (by decide), if_neg (by decide)]
  exact Lc2_at9

theorem norm3_e2 : norm3 (((0 : ℝ), (1 : ℝ), (0 : ℝ))) = 1 := by
  unfold norm3 normsq
  norm_num

theorem norm3_e3 : norm3 (((0 : ℝ), (0 : ℝ), (1 : ℝ))) = 1 := by
  unfold norm3 normsq
  norm_num

theorem Lc7_v1 : sub3 (NL Lc7 (fingerMCP 1)) (NL Lc7 (fingerPIP 1)) = ((0 : ℝ), 1, 0) := by
  rw [Lc7_NL]
  have hm : Lc7 (fingerMCP 1) = ((0 : ℝ), 1, 0) := by
    unfold Lc7
    rw [if_pos (by decide : fingerMCP 1 = (5 : Fin 21))]
  have hp : Lc7 (fingerPIP 1) = origin := by
    unfold Lc7
    rw [if_neg (by decide), if_neg (by decide)]
    exact Lc2_ne9 6 (by decide)
  rw [hm, hp, sub3_origin]

theorem Lc7_v2 : sub3 (NL Lc7 (fingerDIP 1)) (NL Lc7 (fingerPIP 1)) = ((0 : ℝ), 0, 1) := by
  rw [Lc7_NL]
  have hd : Lc7 (fingerDIP 1) = ((0 : ℝ), 0, 1) := by
    unfold Lc7
    rw [if_neg (by decide), if_pos (by decide : fingerDIP 1 = (7 : Fin 21))]
  have hp : Lc7 (fingerPIP 1) = origin := by
    unfold Lc7
    rw [if_neg (by decide), if_neg (by decide)]
    exact Lc2_ne9 6 (by decide)
  rw [hd, hp, sub3_origin]

/-- Witness for C7: on the constant pose the thumb's three joints coincide
and its angle feature is `0`; on the right-angle pose the index finger's two
vectors are unit length and its angle feature is the arccosine formula. -/
theorem finger_angle_cases_witness :
    (LcC (fingerMCP 0) = LcC (fingerPIP 0) ∧ LcC (fingerDIP 0) = LcC (fingerPIP 0) ∧
      (extract LcC).getD (25 + (0 : Fin 5).val) 0 = 0) ∧
    (eps ≤ norm3 (sub3 (NL Lc7 (fingerMCP 1)) (NL Lc7 (fingerPIP 1))) ∧
      eps ≤ norm3 (sub3 (NL Lc7 (fingerDIP 1)) (NL Lc7 (fingerPIP 1))) ∧
      (extract Lc7).getD (25 + (1 : Fin 5).val) 0 =
        Real.arccos (clip (dot3 (sub3 (NL Lc7 (fingerMCP 1)) (NL Lc7 (fingerPIP 1)))
            (sub3 (NL Lc7 (fingerDIP 1)) (NL Lc7 (fingerPIP 1))) /
          (norm3 (sub3 (NL Lc7 (fingerMCP 1)) (NL Lc7 (fingerPIP 1))) *
           norm3 (sub3 (NL Lc7 (fingerDIP 1)) (NL Lc7 (fingerPIP 1))))) (-1) 1)) := by
  have h1 : eps ≤ norm3 (sub3 (NL Lc7 (fingerMCP 1)) (NL Lc7 (fingerPIP 1))) := by
    rw [Lc7_v1, norm3_e2]
    norm_num [eps]
  have h2 : eps ≤ norm3 (sub3 (NL Lc7 (fingerDIP 1)) (NL Lc7 (fingerPIP 1))) := by
    rw [Lc7_v2, norm3_e3]
    norm_num [eps]
  exact ⟨⟨rfl, rfl, (finger_angle_cases LcC 0).1 rfl rfl⟩,
    ⟨h1, h2, (finger_angle_cases Lc7 1).2 h1 h2⟩⟩

end HandFeatures
